import Mathlib

/-!
Verification of the climbing-map terrain pipeline scripts.

Shallow embedding of `src/server.py`, `src/scripts/process_terrain.py` and
`src/scripts/process_laz.py`.  Subprocess invocations are modelled as the
concrete argument lists the scripts build; the surrounding control flow is
translated into pure functions over an environment record whose fields are
the oracles the scripts consult (which executables are on the search path,
the return code of each subprocess call, which files exist at each
`exists()` check site).  A run is summarised by the ordered trace of the
external effects it performs together with the process exit code.
-/

namespace ClimbingMap

/-- A filesystem path, split as Python's `pathlib.Path` is used by the
scripts: a parent directory and a final name (`p.parent`, `p.name`). -/
structure FPath where
  dir : String
  name : String
deriving DecidableEq, Repr, Inhabited

/-- `str(p)`: the full path string. -/
def FPath.str (p : FPath) : String := p.dir ++ "/" ++ p.name

/-- An external command: the argument list handed to `subprocess.run`. -/
abbrev Cmd := List String

/-! ## Fixed directory layout (module-level constants of both scripts) -/

def RAW_DATA_DIR : String := "PROJECT/data/raw"

def PROCESSED_DIR : String := "PROJECT/data/processed"

def OUTPUT_DIR : String := "PROJECT/terrain-tiles"

/-! ## Tile server (`src/server.py`)

`CORSRequestHandler` overrides `end_headers`, `do_OPTIONS` and
`guess_type`.  We model the extra headers `end_headers` emits before
delegating to the base class, the `Content-Type` the base
`SimpleHTTPRequestHandler` computes through `guess_type` for a successful
GET, and the OPTIONS handler.  The base handler never emits a
`Content-Encoding` header of its own. -/

/-- `path.endswith(".terrain")` — the one extension the server treats
specially.  The suffix test is taken at the character-list level so that
it evaluates by kernel reduction. -/
def isTerrainPath (path : String) : Bool := ".terrain".data.isSuffixOf path.data

/-- The three CORS headers `end_headers` adds to every response. -/
def corsHeaders : List (String × String) :=
  [("Access-Control-Allow-Origin", "*"),
   ("Access-Control-Allow-Methods", "GET, OPTIONS"),
   ("Access-Control-Allow-Headers", "*")]

/-- The headers `CORSRequestHandler.end_headers` injects (in order) before
calling the base `end_headers`: CORS headers always, and the gzip
encoding/octet-stream type pair exactly when the request path ends in
`.terrain` (`src/server.py` lines 14-25). -/
def endHeadersExtra (path : String) : List (String × String) :=
  corsHeaders ++
    (if isTerrainPath path then
      [("Content-Encoding", "gzip"), ("Content-Type", "application/octet-stream")]
    else [])

/-- `CORSRequestHandler.guess_type` (`src/server.py` lines 31-34):
`.terrain` paths are typed as octet-streams, everything else falls through
to the base implementation, modelled by the oracle `base`. -/
def guessType (base : String → String) (path : String) : String :=
  if isTerrainPath path then "application/octet-stream" else base path

/-- An HTTP response as the handler produces it: status code, header list
in emission order, body bytes. -/
structure HttpResponse where
  status : Nat
  headers : List (String × String)
  body : List UInt8
deriving DecidableEq, Repr

/-- A successful GET on a file: the base `send_head` emits the
`Content-Type` (via the overridden `guess_type`) and `Content-Length`,
then `end_headers` appends its extra headers.  `base` is the stdlib
mimetype table for non-`.terrain` paths, `len`/`content` the served file. -/
def getResponse (base : String → String) (path : String) (content : List UInt8) :
    HttpResponse :=
  { status := 200
    headers := [("Content-Type", guessType base path),
                ("Content-Length", toString content.length)] ++ endHeadersExtra path
    body := content }

/-- `do_OPTIONS` (`src/server.py` lines 27-29): send a 200 status line,
emit the headers (which go through the overridden `end_headers`), send no
body. -/
def doOptions (path : String) : HttpResponse :=
  { status := 200
    headers := endHeadersExtra path
    body := [] }

/-! ## Output verifier (`process_terrain.py` lines 240-275)

`verify_output` checks for `layer.json` in the output root; only in the
success branch does it count zoom directories, `.terrain` files and total
bytes, all of which are merely printed.  We model the state of the output
directory by the facts the function reads from it. -/

/-- The state of the tile output directory as `verify_output` observes it. -/
structure OutputDirState where
  layerJsonExists : Bool
  zoomDirCount : Nat
  terrainFileCount : Nat
  totalByteSize : Nat
deriving DecidableEq, Repr

/-- `verify_output`: returns its success boolean, paired with the
informational statistics it computes (printed only) in the success branch. -/
def verifyOutput (d : OutputDirState) : Bool × Option (Nat × Nat × Nat) :=
  if d.layerJsonExists then
    (true, some (d.zoomDirCount, d.terrainFileCount, d.totalByteSize))
  else
    (false, none)

/-! ## Raster pipeline commands (`process_terrain.py`)

The exact argument lists the script builds for each stage, on the Docker
path (host dirs mounted into container mount points) and on the local path. -/

/-- `process_with_docker` merge command (lines 95-101). -/
def dockerMergeCmd (inputs : List FPath) : Cmd :=
  ["docker", "run", "--rm",
   "-v", RAW_DATA_DIR ++ ":/data/input",
   "-v", PROCESSED_DIR ++ ":/data/output",
   "osgeo/gdal:latest",
   "gdal_merge.py", "-o", "/data/output/merged.tif"] ++
    inputs.map (fun f => "/data/input/" ++ f.name)

/-- `process_with_docker` reprojection command (lines 113-124). -/
def dockerWarpCmd (inputFile : FPath) : Cmd :=
  ["docker", "run", "--rm",
   "-v", inputFile.dir ++ ":/data/input",
   "-v", PROCESSED_DIR ++ ":/data/output",
   "osgeo/gdal:latest",
   "gdalwarp",
   "-t_srs", "EPSG:4326",
   "-r", "bilinear",
   "-of", "GTiff",
   "/data/input/" ++ inputFile.name,
   "/data/output/wgs84.tif"]

/-- `process_with_docker` tiling command (lines 132-143). -/
def dockerTileCmd : Cmd :=
  ["docker", "run", "--rm",
   "-v", PROCESSED_DIR ++ ":/data/input",
   "-v", OUTPUT_DIR ++ ":/data/output",
   "tumgis/ctb-quantized-mesh",
   "ctb-tile", "-f", "Mesh", "-C", "-N", "-o", "/data/output",
   "/data/input/wgs84.tif"]

/-- `process_with_docker` layer.json command (lines 151-161). -/
def dockerLayerCmd : Cmd :=
  ["docker", "run", "--rm",
   "-v", PROCESSED_DIR ++ ":/data/input",
   "-v", OUTPUT_DIR ++ ":/data/output",
   "tumgis/ctb-quantized-mesh",
   "ctb-tile", "-f", "Mesh", "-l", "-o", "/data/output",
   "/data/input/wgs84.tif"]

/-- `process_with_local_tools` merge command (line 184). -/
def localMergeCmd (inputs : List FPath) : Cmd :=
  ["gdal_merge.py", "-o", PROCESSED_DIR ++ "/merged.tif"] ++ inputs.map FPath.str

/-- `process_with_local_tools` reprojection command (lines 194-201). -/
def localWarpCmd (inputFile : FPath) : Cmd :=
  ["gdalwarp",
   "-t_srs", "EPSG:4326",
   "-r", "bilinear",
   "-of", "GTiff",
   inputFile.str,
   PROCESSED_DIR ++ "/wgs84.tif"]

/-- `process_with_local_tools` tiling command (lines 209-216). -/
def localTileCmd : Cmd :=
  ["ctb-tile", "-f", "Mesh", "-C", "-N", "-o", OUTPUT_DIR,
   PROCESSED_DIR ++ "/wgs84.tif"]

/-- `process_with_local_tools` layer.json command (lines 223-229). -/
def localLayerCmd : Cmd :=
  ["ctb-tile", "-f", "Mesh", "-l", "-o", OUTPUT_DIR,
   PROCESSED_DIR ++ "/wgs84.tif"]

/-- The intermediate merged raster, `PROCESSED_DIR / 'merged.tif'`. -/
def mergedFile : FPath := ⟨PROCESSED_DIR, "merged.tif"⟩

/-- The ordered command plan of `process_with_docker` (lines 80-166):
merge only when more than one input, then reproject (on the merged file,
or directly on the sole input), then tile, then write layer.json.
The empty-input case never arises: `main` exits beforehand when the input
list is empty (line 303). -/
def processWithDockerCmds : List FPath → List Cmd
  | [] => []
  | [f] => [dockerWarpCmd f, dockerTileCmd, dockerLayerCmd]
  | fs => [dockerMergeCmd fs, dockerWarpCmd mergedFile, dockerTileCmd, dockerLayerCmd]

/-- The ordered command plan of `process_with_local_tools`
(lines 169-237): as the Docker plan, except that the tiling and
layer.json invocations happen only when `ctb-tile` is available (the
function otherwise just prints instructions). -/
def processWithLocalCmds (ctb : Bool) : List FPath → List Cmd
  | [] => []
  | [f] => localWarpCmd f :: (if ctb then [localTileCmd, localLayerCmd] else [])
  | fs => localMergeCmd fs :: localWarpCmd mergedFile ::
      (if ctb then [localTileCmd, localLayerCmd] else [])

/-- Run a command plan under `subprocess.run(..., check=True)` semantics:
commands execute in order; a non-zero exit (oracle `ok c = false`) raises
`CalledProcessError`, so later commands never run.  Returns the trace of
commands actually invoked and whether all of them succeeded. -/
def execChecked (ok : Cmd → Bool) : List Cmd → List Cmd × Bool
  | [] => ([], true)
  | c :: cs =>
      if ok c then
        let r := execChecked ok cs
        (c :: r.1, r.2)
      else ([c], false)

/-! ## Raster pipeline driver (`process_terrain.py` `main`, lines 278-320) -/

/-- The environment `process_terrain.py` runs in: which executables
`shutil.which` finds, the command-line argument and whether the named file
exists, the `.tif`/`.tiff` files globbed from the raw-data directory, the
exit status of each external command, and whether `layer.json` exists when
`verify_output` finally looks. -/
structure TerrainEnv where
  docker : Bool
  gdal : Bool
  ctb : Bool
  hasArg : Bool
  argFile : FPath
  argExists : Bool
  rawTifs : List FPath
  ok : Cmd → Bool
  finalLayerJsonExists : Bool

/-- What a run of `process_terrain.py` did: whether the raw-data directory
was scanned for inputs, which directories were created, the external
commands invoked in order, and the process exit code. -/
structure TerrainRun where
  scannedRaw : Bool
  dirsMade : List String
  trace : List Cmd
  exitCode : Nat
deriving Repr

/-- `check_dependencies` (lines 33-56): `False` (here `none`) when neither
Docker nor the GDAL + ctb-tile pair is present, else the availability
triple. -/
def checkDependencies (e : TerrainEnv) : Option (Bool × Bool × Bool) :=
  if !e.docker && !(e.gdal && e.ctb) then none
  else some (e.docker, e.gdal, e.ctb)

/-- The processing phase of `main` (lines 307-320): pick the Docker or
local plan, run it under check=True semantics inside the try block (a
`CalledProcessError` is caught and turns into `sys.exit(1)`), then run
`verify_output`, whose result does not affect the exit code. -/
def terrainProcess (e : TerrainEnv) (scanned : Bool) (inputs : List FPath) :
    TerrainRun :=
  let plan := if e.docker then processWithDockerCmds inputs
              else processWithLocalCmds e.ctb inputs
  let r := execChecked e.ok plan
  { scannedRaw := scanned
    dirsMade := (if scanned then [RAW_DATA_DIR] else []) ++ [PROCESSED_DIR, OUTPUT_DIR]
    trace := r.1
    exitCode := if r.2 then 0 else 1 }

/-- `main` of `process_terrain.py` (lines 278-320): dependency check
(exit 1 when insufficient), then input selection — a positional argument
naming an existing file is used alone, a non-existent argument is exit 1,
and with no argument the raw-data directory is scanned (`find_input_files`,
lines 59-77, which creates the raw directory and globs it); an empty input
list is exit 1.  Then the processing phase. -/
def terrainMain (e : TerrainEnv) : TerrainRun :=
  match checkDependencies e with
  | none => ⟨false, [], [], 1⟩
  | some _ =>
    if e.hasArg then
      if e.argExists then terrainProcess e false [e.argFile]
      else ⟨false, [], [], 1⟩
    else
      if e.rawTifs.isEmpty then ⟨true, [RAW_DATA_DIR], [], 1⟩
      else terrainProcess e true e.rawTifs

/-! ## Point-cloud pipeline commands (`process_laz.py`) -/

/-- Docker PDAL pipeline command, `convert_laz_to_dem_docker`
(lines 90-99). -/
def lazPipelineDockerCmd (laz : FPath) (outDir : String) : Cmd :=
  ["docker", "run", "--rm",
   "-v", laz.dir ++ ":/data/input_dir",
   "-v", outDir ++ ":/data",
   "-v", PROCESSED_DIR ++ ":/data/config",
   "pdal/pdal:latest",
   "pdal", "pipeline", "/data/config/pipeline.json",
   "--readers.las.filename=/data/input_dir/" ++ laz.name,
   "--writers.gdal.filename=/data/output.tif"]

/-- Docker `pdal translate` fallback command, `convert_laz_simple_docker`
(lines 126-136). -/
def lazTranslateDockerCmd (laz : FPath) (outDir : String) : Cmd :=
  ["docker", "run", "--rm",
   "-v", laz.dir ++ ":/input",
   "-v", outDir ++ ":/output",
   "pdal/pdal:latest",
   "pdal", "translate",
   "/input/" ++ laz.name,
   "/output/dem.tif",
   "--writers.gdal.resolution=1.0",
   "--writers.gdal.output_type=idw"]

/-- Local PDAL pipeline command, `convert_laz_to_dem_pdal` (line 187). -/
def lazLocalPipelineCmd : Cmd :=
  ["pdal", "pipeline", PROCESSED_DIR ++ "/pipeline.json"]

/-- Docker reprojection command, `reproject_to_wgs84` (lines 210-221). -/
def lazDockerWarpCmd (inp : FPath) : Cmd :=
  ["docker", "run", "--rm",
   "-v", inp.dir ++ ":/data",
   "osgeo/gdal:latest",
   "gdalwarp",
   "-t_srs", "EPSG:4326",
   "-r", "bilinear",
   "-of", "GTiff",
   "-co", "COMPRESS=LZW",
   "/data/" ++ inp.name,
   "/data/wgs84.tif"]

/-- Local reprojection command, `reproject_to_wgs84` (lines 232-240). -/
def lazLocalWarpCmd (inp outp : String) : Cmd :=
  ["gdalwarp",
   "-t_srs", "EPSG:4326",
   "-r", "bilinear",
   "-of", "GTiff",
   "-co", "COMPRESS=LZW",
   inp, outp]

/-- Docker tiling command, `create_terrain_tiles` (lines 258-269). -/
def lazTileCmd (dem : FPath) : Cmd :=
  ["docker", "run", "--rm",
   "-v", dem.dir ++ ":/data/input",
   "-v", OUTPUT_DIR ++ ":/data/output",
   "tumgis/ctb-quantized-mesh",
   "ctb-tile", "-f", "Mesh", "-C", "-N", "-o", "/data/output",
   "/data/input/" ++ dem.name]

/-- Docker layer.json command, `create_terrain_tiles` (lines 278-288). -/
def lazLayerCmd (dem : FPath) : Cmd :=
  ["docker", "run", "--rm",
   "-v", dem.dir ++ ":/data/input",
   "-v", OUTPUT_DIR ++ ":/data/output",
   "tumgis/ctb-quantized-mesh",
   "ctb-tile", "-f", "Mesh", "-l", "-o", "/data/output",
   "/data/input/" ++ dem.name]

/-- Local `pdal info` probe, `get_file_info` (line 307). -/
def lazInfoLocalCmd (f : FPath) : Cmd :=
  ["pdal", "info", "--summary", f.str]

/-- Docker `pdal info` probe, `get_file_info` (lines 320-325). -/
def lazInfoDockerCmd (f : FPath) : Cmd :=
  ["docker", "run", "--rm",
   "-v", f.dir ++ ":/data",
   "pdal/pdal:latest",
   "pdal", "info", "--summary", "/data/" ++ f.name]

/-! ## Point-cloud pipeline control flow -/

/-- An external effect of a `process_laz.py` run: a subprocess invocation
together with whether it exited zero (`subprocess.run` with captured
output — nothing raises on a non-zero code here), a write of the PDAL
pipeline description file, a `shutil.move`, or a `mkdir`. -/
inductive LazEvent where
  | run (c : Cmd) (rc0 : Bool)
  | writePipelineJson
  | move (src dst : String)
  | mkdir (d : String)
deriving DecidableEq, Repr

/-- The environment `process_laz.py` runs in.  One Boolean per oracle the
script consults: executable availability, each subprocess's exit status,
and each `exists()` check site on the filesystem. -/
structure LazEnv where
  hasArg : Bool
  argFile : FPath
  argExists : Bool
  rawLazFiles : List FPath
  docker : Bool
  pdal : Bool
  gdal : Bool
  infoRc0 : Bool
  primaryDockerRc0 : Bool
  primaryDockerTemp : Bool
  primaryDockerOut : Bool
  fallbackRc0 : Bool
  fallbackTemp : Bool
  primaryPdalRc0 : Bool
  primaryPdalOut : Bool
  demExistsAfter : Bool
  warpDockerRc0 : Bool
  warpDockerTemp : Bool
  warpLocalRc0 : Bool
  warpLocalOut : Bool
  tileRc0 : Bool
  layerRc0 : Bool
  layerJsonExists : Bool

/-- `convert_laz_simple_docker` (lines 117-149): run `pdal translate` in
Docker (exit code only printed), then succeed exactly when the expected
`dem.tif` appeared, moving it into place. -/
def convertLazSimpleDocker (e : LazEnv) (laz outp : FPath) :
    List LazEvent × Bool :=
  let c := lazTranslateDockerCmd laz outp.dir
  if e.fallbackTemp then
    ([.run c e.fallbackRc0, .move (outp.dir ++ "/dem.tif") outp.str], true)
  else
    ([.run c e.fallbackRc0], false)

/-- `convert_laz_to_dem_docker` (lines 51-114): create the output and
pipeline-file directories, write the PDAL pipeline description, run PDAL
in Docker; on a non-zero exit, delegate to the simplified fallback; on a
zero exit, move the produced raster into place and succeed exactly when
the output file exists. -/
def convertLazToDemDocker (e : LazEnv) (laz outp : FPath) :
    List LazEvent × Bool :=
  let pre : List LazEvent := [.mkdir outp.dir, .mkdir PROCESSED_DIR, .writePipelineJson]
  let c := lazPipelineDockerCmd laz outp.dir
  if e.primaryDockerRc0 then
    let mv : List LazEvent :=
      if e.primaryDockerTemp then [.move (outp.dir ++ "/output.tif") outp.str] else []
    (pre ++ [.run c true] ++ mv, e.primaryDockerOut)
  else
    let fb := convertLazSimpleDocker e laz outp
    (pre ++ [.run c false] ++ fb.1, fb.2)

/-- `convert_laz_to_dem_pdal` (lines 152-196): create the output
directory, write the PDAL pipeline description, run the local `pdal`
executable; fail on a non-zero exit (no fallback), else succeed exactly
when the output file exists. -/
def convertLazToDemPdal (e : LazEnv) (outp : FPath) :
    List LazEvent × Bool :=
  let pre : List LazEvent := [.mkdir outp.dir, .writePipelineJson]
  (pre ++ [.run lazLocalPipelineCmd e.primaryPdalRc0],
   if e.primaryPdalRc0 then e.primaryPdalOut else false)

/-- `reproject_to_wgs84` (lines 199-246): try Docker first (success means
the warped file appeared, which is then moved into place — the subprocess
exit code is ignored); otherwise fall back to a local `gdalwarp` when
present (success means the output file exists); with neither, fail without
running anything. -/
def reprojectToWgs84 (e : LazEnv) (inp outp : FPath) :
    List LazEvent × Bool :=
  let dockerPart : List LazEvent :=
    if e.docker then [.run (lazDockerWarpCmd inp) e.warpDockerRc0] else []
  if e.docker && e.warpDockerTemp then
    (dockerPart ++ [.move (inp.dir ++ "/wgs84.tif") outp.str], true)
  else if e.gdal then
    (dockerPart ++ [.run (lazLocalWarpCmd inp.str outp.str) e.warpLocalRc0],
     e.warpLocalOut)
  else (dockerPart, false)

/-- `create_terrain_tiles` (lines 249-293): unconditionally invoke
`ctb-tile` through Docker, twice (tiles, then layer.json); neither exit
code is checked (the first is only printed as a warning), and the result
is whether `layer.json` exists afterwards.  When the `docker` executable
is absent, `subprocess.run` raises `FileNotFoundError`, which no caller
catches — modelled by `none`. -/
def createTerrainTiles (e : LazEnv) (dem : FPath) :
    List LazEvent × Option Bool :=
  if e.docker then
    ([.mkdir OUTPUT_DIR, .run (lazTileCmd dem) e.tileRc0,
      .run (lazLayerCmd dem) e.layerRc0],
     some e.layerJsonExists)
  else ([.mkdir OUTPUT_DIR], none)

/-- `get_file_info` (lines 296-333): probe the file with `pdal info`,
locally when PDAL is present, else through Docker, else not at all.  The
result only feeds printing. -/
def getFileInfo (e : LazEnv) (f : FPath) : List LazEvent :=
  if e.pdal then [.run (lazInfoLocalCmd f) e.infoRc0]
  else if e.docker then [.run (lazInfoDockerCmd f) e.infoRc0]
  else []

/-- What a run of `process_laz.py` did. -/
structure LazRun where
  scannedRaw : Bool
  trace : List LazEvent
  exitCode : Nat
deriving Repr

/-- The intermediate DEM raster, `PROCESSED_DIR / 'dem.tif'`. -/
def demFile : FPath := ⟨PROCESSED_DIR, "dem.tif"⟩

/-- The reprojected raster, `PROCESSED_DIR / 'wgs84.tif'`. -/
def wgs84File : FPath := ⟨PROCESSED_DIR, "wgs84.tif"⟩

/-- The input file a `process_laz.py` run operates on: the positional
argument when one was given, else the first file of the raw-data scan
(`laz_files[0]`, line 353). -/
def lazInput (e : LazEnv) : FPath :=
  if e.hasArg then e.argFile else e.rawLazFiles.headI

/-- The conversion step as dispatched by `main` (lines 379-384): the
Docker path when Docker is present, else the local-PDAL path (under
`main`'s guarantee that one of the two is available). -/
def lazConv (e : LazEnv) : List LazEvent × Bool :=
  if e.docker then convertLazToDemDocker e (lazInput e) demFile
  else convertLazToDemPdal e demFile

/-- The body of `main` of `process_laz.py` (lines 361-434), reached once
an input file has been selected: the dependency check (exit 1 when
neither Docker nor PDAL is present), the informational probe, the
conversion step — exit 1 when it fails or the DEM file is absent; the
reprojection step — exit 1 on failure; and the tiling step, whose
failure only prints a warning before the final verification printing, so
the process still exits 0 (a missing `docker` executable instead raises
out of `main`, terminating with a traceback and exit code 1).  Returns
the event trace (starting from `t0`, the events of input selection) and
the exit code. -/
def lazMainCore (e : LazEnv) : List LazEvent × Nat :=
  let t0 : List LazEvent := if e.hasArg then [] else [.mkdir RAW_DATA_DIR]
  if !e.docker && !e.pdal then (t0, 1)
  else
    let t1 := t0 ++ getFileInfo e (lazInput e) ++ [.mkdir PROCESSED_DIR]
    let conv := lazConv e
    let t2 := t1 ++ conv.1
    if !conv.2 || !e.demExistsAfter then (t2, 1)
    else
      let rep := reprojectToWgs84 e demFile wgs84File
      let t3 := t2 ++ rep.1
      if !rep.2 then (t3, 1)
      else
        match createTerrainTiles e wgs84File with
        | (t4, none) => (t3 ++ t4, 1)
        | (t4, some _) => (t3 ++ t4, 0)

/-- `main` of `process_laz.py` (lines 336-434): input selection — the
positional argument if given and existing (exit 1 when it names a missing
file), else the first point-cloud file globbed from the raw-data
directory, which is created for the scan (exit 1 when the scan is
empty) — followed by `lazMainCore`. -/
def lazMain (e : LazEnv) : LazRun :=
  if !e.hasArg && e.rawLazFiles.isEmpty then
    { scannedRaw := true, trace := [.mkdir RAW_DATA_DIR], exitCode := 1 }
  else if e.hasArg && !e.argExists then
    { scannedRaw := false, trace := [], exitCode := 1 }
  else
    { scannedRaw := !e.hasArg, trace := (lazMainCore e).1
      exitCode := (lazMainCore e).2 }

/-! ## Event predicates -/

/-- A command is a merge invocation when it is one of the two merge
command shapes the raster script can build. -/
def isMergeInvocation (c : Cmd) : Prop :=
  ∃ xs : List FPath, c = dockerMergeCmd xs ∨ c = localMergeCmd xs

/-- A subprocess event running the simplified one-step fallback
(`pdal translate`). -/
def LazEvent.isTranslateRun : LazEvent → Bool
  | .run c _ => c.contains "translate"
  | _ => false

/-- A subprocess event belonging to a conversion stage of the point-cloud
pipeline (point-cloud-to-raster, fallback, reprojection or tiling), as
opposed to the informational probe. -/
def LazEvent.isConversionRun : LazEvent → Bool
  | .run c _ =>
      c.contains "pipeline" || c.contains "translate" ||
        c.contains "gdalwarp" || c.contains "ctb-tile"
  | _ => false

/-! ## Concrete run environments -/

/-- A concrete two-input run environment for the raster pipeline. -/
def terrainEnvMulti : TerrainEnv :=
  { docker := true, gdal := false, ctb := false, hasArg := false
    argFile := ⟨RAW_DATA_DIR, "z.tif"⟩, argExists := false
    rawTifs := [⟨RAW_DATA_DIR, "a.tif"⟩, ⟨RAW_DATA_DIR, "b.tif"⟩]
    ok := fun _ => true, finalLayerJsonExists := true }

/-- A concrete argument-driven environment for the raster pipeline with
two files present in the raw-data directory. -/
def terrainEnvArg : TerrainEnv :=
  { docker := true, gdal := false, ctb := false, hasArg := true
    argFile := ⟨"PROJECT", "custom.tif"⟩, argExists := true
    rawTifs := [⟨RAW_DATA_DIR, "a.tif"⟩, ⟨RAW_DATA_DIR, "b.tif"⟩]
    ok := fun _ => true, finalLayerJsonExists := true }

/-- A raster-pipeline environment with no argument and an empty raw-data
directory. -/
def terrainEnvEmpty : TerrainEnv :=
  { docker := true, gdal := false, ctb := false, hasArg := false
    argFile := ⟨RAW_DATA_DIR, "z.tif"⟩, argExists := false, rawTifs := []
    ok := fun _ => true, finalLayerJsonExists := false }

/-- A raster-pipeline environment in which no tool set is available. -/
def terrainEnvNoTools : TerrainEnv :=
  { terrainEnvMulti with docker := false, gdal := false, ctb := false }

/-- A concrete argument-driven environment for the point-cloud pipeline
on the Docker path, with every subprocess succeeding and every expected
file appearing. -/
def lazEnvArg : LazEnv :=
  { hasArg := true, argFile := ⟨"PROJECT", "cloud.laz"⟩, argExists := true
    rawLazFiles := [⟨RAW_DATA_DIR, "x.laz"⟩]
    docker := true, pdal := false, gdal := false
    infoRc0 := true, primaryDockerRc0 := true, primaryDockerTemp := true
    primaryDockerOut := true, fallbackRc0 := true, fallbackTemp := true
    primaryPdalRc0 := true, primaryPdalOut := true, demExistsAfter := true
    warpDockerRc0 := true, warpDockerTemp := true, warpLocalRc0 := true
    warpLocalOut := true, tileRc0 := true, layerRc0 := true
    layerJsonExists := true }

/-- A point-cloud-pipeline environment with no argument and an empty
raw-data directory. -/
def lazEnvEmpty : LazEnv :=
  { lazEnvArg with hasArg := false, rawLazFiles := [] }

/-- A point-cloud-pipeline environment on the local-PDAL path (no
Docker) whose primary conversion subprocess exits non-zero. -/
def lazEnvLocalFail : LazEnv :=
  { lazEnvArg with
    docker := false, pdal := true, primaryPdalRc0 := false,
    demExistsAfter := false }

/-- A point-cloud-pipeline environment on the Docker path whose primary
conversion subprocess exits non-zero and whose fallback also fails to
produce the raster. -/
def lazEnvDockerFail : LazEnv :=
  { lazEnvArg with primaryDockerRc0 := false, fallbackTemp := false }

/-- A point-cloud-pipeline environment on the Docker path in which every
stage succeeds except the tiling subprocess, which exits non-zero and
leaves no `layer.json`. -/
def lazEnvTileFail : LazEnv :=
  { lazEnvArg with
    tileRc0 := false, layerRc0 := false, layerJsonExists := false }

/-- A point-cloud-pipeline environment with local PDAL and GDAL but no
Docker: no probed tool set can carry out the (Docker-only) tiling
stage. -/
def lazEnvNoDockerTools : LazEnv :=
  { lazEnvArg with docker := false, pdal := true, gdal := true }

/-- A point-cloud-pipeline environment with neither Docker nor PDAL. -/
def lazEnvNo : LazEnv :=
  { lazEnvArg with docker := false, pdal := false }

/-! ## Helper lemmas -/

lemma execChecked_subset (ok : Cmd → Bool) :
    ∀ (l : List Cmd) (c : Cmd), c ∈ (execChecked ok l).1 → c ∈ l := by
  intro l
  induction l with
  | nil => intro c hc; simp [execChecked] at hc
  | cons a as ih =>
      intro c hc
      cases h : ok a with
      | false =>
          simp [execChecked, h] at hc
          simp [hc]
      | true =>
          simp [execChecked, h] at hc
          rcases hc with rfl | hc
          · exact List.mem_cons_self _ _
          · exact List.mem_cons_of_mem _ (ih _ hc)

lemma execChecked_cons_head (ok : Cmd → Bool) (a : Cmd) (l : List Cmd) :
    ∃ t, (execChecked ok (a :: l)).1 = a :: t := by
  cases h : ok a with
  | false => exact ⟨[], by simp [execChecked, h]⟩
  | true => exact ⟨(execChecked ok l).1, by simp [execChecked, h]⟩

lemma execChecked_cons_true (ok : Cmd → Bool) (a : Cmd) (l : List Cmd)
    (h : ok a = true) :
    (execChecked ok (a :: l)).1 = a :: (execChecked ok l).1 := by
  simp [execChecked, h]

lemma execChecked_head? (ok : Cmd → Bool) (a : Cmd) (l : List Cmd) :
    (execChecked ok (a :: l)).1.head? = some a := by
  cases h : ok a <;> simp [execChecked, h]

lemma execChecked_all_ok (ok : Cmd → Bool) :
    ∀ (l : List Cmd), (execChecked ok l).2 = true →
      ∀ c ∈ (execChecked ok l).1, ok c = true := by
  intro l
  induction l with
  | nil => simp [execChecked]
  | cons a as ih =>
      cases h : ok a with
      | false => simp [execChecked, h]
      | true =>
          intro hall c hc
          rw [execChecked_cons_true ok a as h] at hc
          have h2 : (execChecked ok as).2 = true := by
            simpa [execChecked, h] using hall
          rcases List.mem_cons.mp hc with rfl | hc
          · exact h
          · exact ih h2 c hc

lemma dockerMergeCmd_ne (xs : List FPath) (f : FPath) :
    dockerMergeCmd xs ≠ dockerWarpCmd f ∧ dockerMergeCmd xs ≠ dockerTileCmd ∧
    dockerMergeCmd xs ≠ dockerLayerCmd ∧ dockerMergeCmd xs ≠ localWarpCmd f ∧
    dockerMergeCmd xs ≠ localTileCmd ∧ dockerMergeCmd xs ≠ localLayerCmd := by
  refine ⟨?_, ?_, ?_, ?_, ?_, ?_⟩ <;>
  · intro h
    simp [dockerWarpCmd, dockerMergeCmd, dockerTileCmd,
      dockerLayerCmd, localWarpCmd, localTileCmd, localLayerCmd] at h

lemma localMergeCmd_ne (xs : List FPath) (f : FPath) :
    localMergeCmd xs ≠ dockerWarpCmd f ∧ localMergeCmd xs ≠ dockerTileCmd ∧
    localMergeCmd xs ≠ dockerLayerCmd ∧ localMergeCmd xs ≠ localWarpCmd f ∧
    localMergeCmd xs ≠ localTileCmd ∧ localMergeCmd xs ≠ localLayerCmd := by
  refine ⟨?_, ?_, ?_, ?_, ?_, ?_⟩ <;>
  · intro h
    simp [dockerWarpCmd, localMergeCmd, dockerTileCmd,
      dockerLayerCmd, localWarpCmd, localTileCmd, localLayerCmd] at h

lemma processWithDockerCmds_multi (f g : FPath) (rest : List FPath) :
    processWithDockerCmds (f :: g :: rest)
      = [dockerMergeCmd (f :: g :: rest), dockerWarpCmd mergedFile,
         dockerTileCmd, dockerLayerCmd] := rfl

lemma processWithDockerCmds_single (f : FPath) :
    processWithDockerCmds [f] = [dockerWarpCmd f, dockerTileCmd, dockerLayerCmd] := rfl

lemma processWithLocalCmds_multi (ctb : Bool) (f g : FPath) (rest : List FPath) :
    processWithLocalCmds ctb (f :: g :: rest)
      = localMergeCmd (f :: g :: rest) :: localWarpCmd mergedFile ::
          (if ctb then [localTileCmd, localLayerCmd] else []) := rfl

lemma processWithLocalCmds_single (ctb : Bool) (f : FPath) :
    processWithLocalCmds ctb [f]
      = localWarpCmd f :: (if ctb then [localTileCmd, localLayerCmd] else []) := rfl

lemma checkDependencies_some (e : TerrainEnv)
    (h : e.docker = true ∨ (e.gdal = true ∧ e.ctb = true)) :
    checkDependencies e = some (e.docker, e.gdal, e.ctb) := by
  rcases h with h | h
  · simp [checkDependencies, h]
  · simp [checkDependencies, h.1, h.2]

lemma terrainMain_noarg (e : TerrainEnv)
    (hdeps : e.docker = true ∨ (e.gdal = true ∧ e.ctb = true))
    (hnoarg : e.hasArg = false) (hne : e.rawTifs ≠ []) :
    terrainMain e = terrainProcess e true e.rawTifs := by
  rw [terrainMain, checkDependencies_some e hdeps]
  simp [hnoarg, List.isEmpty_iff, hne]

lemma terrainMain_arg (e : TerrainEnv)
    (hdeps : e.docker = true ∨ (e.gdal = true ∧ e.ctb = true))
    (harg : e.hasArg = true) (hex : e.argExists = true) :
    terrainMain e = terrainProcess e false [e.argFile] := by
  rw [terrainMain, checkDependencies_some e hdeps]
  simp [harg, hex]

lemma terrainProcess_single_props (e : TerrainEnv) (s : Bool) (x : FPath) :
    (terrainProcess e s [x]).trace.head?
      = some (if e.docker then dockerWarpCmd x else localWarpCmd x) ∧
    ∀ c ∈ (terrainProcess e s [x]).trace, ¬ isMergeInvocation c := by
  cases hd : e.docker with
  | true =>
      simp only [hd, if_true, terrainProcess, processWithDockerCmds_single]
      refine ⟨execChecked_head? e.ok _ _, fun c hc hm => ?_⟩
      obtain ⟨xs, hx | hx⟩ := hm <;>
      · have hmem := execChecked_subset e.ok _ c hc
        subst hx
        simp only [List.mem_cons, List.not_mem_nil, or_false] at hmem
        first
          | rcases hmem with h1 | h1 | h1
            · exact (dockerMergeCmd_ne xs x).1 h1
            · exact (dockerMergeCmd_ne xs x).2.1 h1
            · exact (dockerMergeCmd_ne xs x).2.2.1 h1
          | rcases hmem with h1 | h1 | h1
            · exact (localMergeCmd_ne xs x).1 h1
            · exact (localMergeCmd_ne xs x).2.1 h1
            · exact (localMergeCmd_ne xs x).2.2.1 h1
  | false =>
      simp only [hd, Bool.false_eq_true, if_false, terrainProcess,
        processWithLocalCmds_single]
      refine ⟨execChecked_head? e.ok _ _, fun c hc hm => ?_⟩
      obtain ⟨xs, hx | hx⟩ := hm <;>
      · have hmem := execChecked_subset e.ok _ c hc
        subst hx
        cases hctb : e.ctb <;>
          simp only [hctb, if_true, Bool.false_eq_true, if_false,
            List.mem_cons, List.not_mem_nil, or_false] at hmem
        · first
            | exact (dockerMergeCmd_ne xs x).2.2.2.1 hmem
            | exact (localMergeCmd_ne xs x).2.2.2.1 hmem
        · first
            | rcases hmem with h1 | h1 | h1
              · exact (dockerMergeCmd_ne xs x).2.2.2.1 h1
              · exact (dockerMergeCmd_ne xs x).2.2.2.2.1 h1
              · exact (dockerMergeCmd_ne xs x).2.2.2.2.2 h1
            | rcases hmem with h1 | h1 | h1
              · exact (localMergeCmd_ne xs x).2.2.2.1 h1
              · exact (localMergeCmd_ne xs x).2.2.2.2.1 h1
              · exact (localMergeCmd_ne xs x).2.2.2.2.2 h1

lemma lazMainCore_snd (l : LazEnv) :
    (lazMainCore l).2 =
      if !l.docker && !l.pdal then 1
      else if !(lazConv l).2 || !l.demExistsAfter then 1
      else if !(reprojectToWgs84 l demFile wgs84File).2 then 1
      else if l.docker then 0 else 1 := by
  cases hD : l.docker <;> cases hP : l.pdal <;>
    cases hc : (lazConv l).2 <;> cases hde : l.demExistsAfter <;>
      cases hr : (reprojectToWgs84 l demFile wgs84File).2 <;>
        simp [lazMainCore, createTerrainTiles, hD, hP, hc, hde, hr]

lemma lazMain_exitCode (l : LazEnv) :
    (lazMain l).exitCode =
      if !l.hasArg && l.rawLazFiles.isEmpty then 1
      else if l.hasArg && !l.argExists then 1
      else (lazMainCore l).2 := by
  by_cases h1 : (!l.hasArg && l.rawLazFiles.isEmpty) = true
  · simp [lazMain, h1]
  · by_cases h2 : (l.hasArg && !l.argExists) = true
    · simp [lazMain, h1, h2]
    · simp [lazMain, h1, h2]

lemma lazMain_trace_core (l : LazEnv) (hA : l.hasArg = true)
    (hX : l.argExists = true) :
    (lazMain l).trace = (lazMainCore l).1 := by
  unfold lazMain
  simp [hA, hX]

lemma lazMainCore_trace_prefix (l : LazEnv)
    (hdep : (!l.docker && !l.pdal) = false) :
    ∃ suffix, (lazMainCore l).1
      = ((if l.hasArg then [] else [LazEvent.mkdir RAW_DATA_DIR])
          ++ getFileInfo l (lazInput l) ++ [LazEvent.mkdir PROCESSED_DIR]
          ++ (lazConv l).1) ++ suffix := by
  unfold lazMainCore
  simp only [hdep, Bool.false_eq_true, if_false]
  split
  · exact ⟨[], by simp [List.append_assoc]⟩
  · split
    · exact ⟨(reprojectToWgs84 l demFile wgs84File).1,
        by simp [List.append_assoc]⟩
    · split
      · rename_i t4 heq
        exact ⟨(reprojectToWgs84 l demFile wgs84File).1 ++ t4,
          by simp [List.append_assoc]⟩
      · rename_i t4 val heq
        exact ⟨(reprojectToWgs84 l demFile wgs84File).1 ++ t4,
          by simp [List.append_assoc]⟩

lemma lazMain_scannedRaw (l : LazEnv) : (lazMain l).scannedRaw = !l.hasArg := by
  unfold lazMain
  split
  · rename_i h
    simp only [Bool.and_eq_true, Bool.not_eq_true'] at h
    simp [h.1]
  · split
    · rename_i h h2
      simp only [Bool.and_eq_true, Bool.not_eq_true'] at h2
      simp [h2.1]
    · rfl

/-! ## Claim theorems -/

/-- C4: the Output Verifier returns success if and only if `layer.json`
exists in the output root; the tile-file count and byte size it computes
are informational only and never affect the success value, including when
the tile count is zero. -/
theorem verify_output_keyed_on_metadata (d d' : OutputDirState)
    (h : d.layerJsonExists = d'.layerJsonExists) :
    (verifyOutput d).1 = d.layerJsonExists ∧
    (verifyOutput d).1 = (verifyOutput d').1 ∧
    (verifyOutput { d with terrainFileCount := 0 }).1 = (verifyOutput d).1 := by
  cases hd : d.layerJsonExists <;> cases hd' : d'.layerJsonExists <;>
    simp_all [verifyOutput]

/-- Witness for `verify_output_keyed_on_metadata` at concrete directory
states (a missing descriptor with tiles present and with none). -/
theorem verify_output_keyed_on_metadata_witness :
    (verifyOutput ⟨false, 3, 0, 5⟩).1 = (OutputDirState.mk false 3 0 5).layerJsonExists ∧
    (verifyOutput ⟨false, 3, 0, 5⟩).1 = (verifyOutput ⟨false, 0, 7, 9⟩).1 ∧
    (verifyOutput { OutputDirState.mk false 3 0 5 with terrainFileCount := 0 }).1
      = (verifyOutput ⟨false, 3, 0, 5⟩).1 :=
  verify_output_keyed_on_metadata ⟨false, 3, 0, 5⟩ ⟨false, 0, 7, 9⟩ rfl

/-- C7: every response to a path ending in `.terrain` carries
`Content-Encoding: gzip` and `Content-Type: application/octet-stream`;
responses to any other path carry no `Content-Encoding` header. -/
theorem terrain_extension_headers (base : String → String) (path : String)
    (content : List UInt8) :
    (isTerrainPath path = true →
       ((getResponse base path content).headers.contains
           ("Content-Encoding", "gzip") = true) ∧
       ((getResponse base path content).headers.contains
           ("Content-Type", "application/octet-stream") = true) ∧
       ((doOptions path).headers.contains ("Content-Encoding", "gzip") = true)) ∧
    (isTerrainPath path = false →
       ((getResponse base path content).headers.all
           (fun h => !(h.1 == "Content-Encoding")) = true) ∧
       ((doOptions path).headers.all
           (fun h => !(h.1 == "Content-Encoding")) = true)) := by
  constructor <;> intro h <;>
    simp [getResponse, doOptions, endHeadersExtra, corsHeaders, guessType, h]

/-- Witness for `terrain_extension_headers` at a `.terrain` path and at a
non-`.terrain` path. -/
theorem terrain_extension_headers_witness :
    (((getResponse (fun _ => "text/html") "/t/0/0/0.terrain" [7]).headers.contains
        ("Content-Encoding", "gzip") = true) ∧
     ((getResponse (fun _ => "text/html") "/t/0/0/0.terrain" [7]).headers.contains
        ("Content-Type", "application/octet-stream") = true) ∧
     ((doOptions "/t/0/0/0.terrain").headers.contains
        ("Content-Encoding", "gzip") = true)) ∧
    (((getResponse (fun _ => "application/json") "/layer.json" [7]).headers.all
        (fun h => !(h.1 == "Content-Encoding")) = true) ∧
     ((doOptions "/layer.json").headers.all
        (fun h => !(h.1 == "Content-Encoding")) = true)) :=
  ⟨(terrain_extension_headers (fun _ => "text/html") "/t/0/0/0.terrain" [7]).1
      (by decide),
   (terrain_extension_headers (fun _ => "application/json") "/layer.json" [7]).2
      (by decide)⟩

/-- C8 counterexample: an OPTIONS request to a path ending in `.terrain`
receives a response that does carry a `Content-Encoding` header, because
`end_headers` keys the header on the path alone, not the method. -/
theorem options_terrain_path_content_encoding_cex :
    (doOptions "/tiles/1/0/0.terrain").status = 200 ∧
    (doOptions "/tiles/1/0/0.terrain").body = [] ∧
    (doOptions "/tiles/1/0/0.terrain").headers.contains
      ("Content-Encoding", "gzip") = true := by
  decide

/-- C8 amended: an OPTIONS request to any path receives a 200 response
with an empty body; the response carries `Content-Encoding: gzip` exactly
when the request path ends in `.terrain`, and no `Content-Encoding`
header otherwise. -/
theorem options_response_amended (path : String) :
    (doOptions path).status = 200 ∧
    (doOptions path).body = [] ∧
    ((doOptions path).headers.contains ("Content-Encoding", "gzip")
       = isTerrainPath path) ∧
    (isTerrainPath path = false →
       (doOptions path).headers.all
         (fun h => !(h.1 == "Content-Encoding")) = true) := by
  refine ⟨rfl, rfl, ?_, ?_⟩ <;>
    cases h : isTerrainPath path <;>
      simp [doOptions, endHeadersExtra, corsHeaders, h]

/-- Witness for `options_response_amended` at a non-`.terrain` path. -/
theorem options_response_amended_witness :
    (doOptions "/layer.json").status = 200 ∧
    (doOptions "/layer.json").headers.all
      (fun h => !(h.1 == "Content-Encoding")) = true :=
  ⟨(options_response_amended "/layer.json").1,
   (options_response_amended "/layer.json").2.2.2 (by decide)⟩

/-- C1: when the input set has more than one raster, a merge invocation
is executed first — before the reprojection invocation, which (when the
merge subprocess succeeds) is the very next command; when the input set
has exactly one raster, no merge invocation is ever executed and the
reprojection invocation on the sole input runs first.  This holds on
both the containerized and local execution paths. -/
theorem terrain_merge_iff_multiple_inputs (e : TerrainEnv) (f g x : FPath)
    (rest : List FPath)
    (hdeps : e.docker = true ∨ (e.gdal = true ∧ e.ctb = true))
    (hnoarg : e.hasArg = false) :
    (e.rawTifs = f :: g :: rest →
       (∃ t, (terrainMain e).trace
           = (if e.docker then dockerMergeCmd (f :: g :: rest)
              else localMergeCmd (f :: g :: rest)) :: t) ∧
       (e.ok (if e.docker then dockerMergeCmd (f :: g :: rest)
              else localMergeCmd (f :: g :: rest)) = true →
          (terrainMain e).trace.tail.head?
            = some (if e.docker then dockerWarpCmd mergedFile
                    else localWarpCmd mergedFile))) ∧
    (e.rawTifs = [x] →
       (terrainMain e).trace.head?
         = some (if e.docker then dockerWarpCmd x else localWarpCmd x) ∧
       ∀ c ∈ (terrainMain e).trace, ¬ isMergeInvocation c) := by
  constructor
  · intro hraw
    have hne : e.rawTifs ≠ [] := by simp [hraw]
    rw [terrainMain_noarg e hdeps hnoarg hne, hraw]
    cases hd : e.docker with
    | true =>
        simp only [hd, if_true, terrainProcess, processWithDockerCmds_multi]
        refine ⟨execChecked_cons_head e.ok _ _, fun hok => ?_⟩
        rw [execChecked_cons_true e.ok _ _ hok]
        simp [execChecked_head?]
    | false =>
        simp only [hd, Bool.false_eq_true, if_false, terrainProcess,
          processWithLocalCmds_multi]
        refine ⟨execChecked_cons_head e.ok _ _, fun hok => ?_⟩
        rw [execChecked_cons_true e.ok _ _ hok]
        simp [execChecked_head?]
  · intro hraw
    have hne : e.rawTifs ≠ [] := by simp [hraw]
    rw [terrainMain_noarg e hdeps hnoarg hne, hraw]
    exact terrainProcess_single_props e true x

/-- Witness for `terrain_merge_iff_multiple_inputs`: in a concrete
two-input Docker run, the merge command is invoked first. -/
theorem terrain_merge_iff_multiple_inputs_witness :
    ∃ t, (terrainMain terrainEnvMulti).trace
        = dockerMergeCmd [⟨RAW_DATA_DIR, "a.tif"⟩, ⟨RAW_DATA_DIR, "b.tif"⟩] :: t :=
  ((terrain_merge_iff_multiple_inputs terrainEnvMulti ⟨RAW_DATA_DIR, "a.tif"⟩
      ⟨RAW_DATA_DIR, "b.tif"⟩ ⟨RAW_DATA_DIR, "a.tif"⟩ [] (Or.inl rfl) rfl).1 rfl).1

/-- C10: with a positional argument naming an existing file, that file is
the sole input: the raw-data directory is never scanned, and in the
raster pipeline no merge invocation is ever executed — the reprojection
runs directly on the argument file — no matter what the raw-data
directory holds. -/
theorem arg_input_sole_no_scan_no_merge (e : TerrainEnv) (l : LazEnv)
    (hdeps : e.docker = true ∨ (e.gdal = true ∧ e.ctb = true))
    (he : e.hasArg = true) (hex : e.argExists = true)
    (hl : l.hasArg = true) (_hlex : l.argExists = true) :
    (terrainMain e).scannedRaw = false ∧
    (terrainMain e).trace.head?
      = some (if e.docker then dockerWarpCmd e.argFile else localWarpCmd e.argFile) ∧
    (∀ c ∈ (terrainMain e).trace, ¬ isMergeInvocation c) ∧
    (lazMain l).scannedRaw = false ∧
    lazInput l = l.argFile := by
  rw [terrainMain_arg e hdeps he hex]
  obtain ⟨h1, h2⟩ := terrainProcess_single_props e false e.argFile
  refine ⟨rfl, h1, h2, ?_, ?_⟩
  · rw [lazMain_scannedRaw, hl]
    rfl
  · simp [lazInput, hl]

/-- Witness for `arg_input_sole_no_scan_no_merge` at concrete
argument-driven environments whose raw-data directories are nonempty. -/
theorem arg_input_sole_no_scan_no_merge_witness :
    (terrainMain terrainEnvArg).scannedRaw = false ∧
    (lazMain lazEnvArg).scannedRaw = false :=
  ⟨(arg_input_sole_no_scan_no_merge terrainEnvArg lazEnvArg
      (Or.inl rfl) rfl rfl rfl rfl).1,
   (arg_input_sole_no_scan_no_merge terrainEnvArg lazEnvArg
      (Or.inl rfl) rfl rfl rfl rfl).2.2.2.1⟩

/-- C6: a run started with no positional argument and an empty raw-data
directory exits 1 without invoking any external command and without
creating the processed or tile-output directories — in both pipeline
scripts. -/
theorem zero_inputs_exit_nonzero_no_writes (e : TerrainEnv) (l : LazEnv)
    (he1 : e.hasArg = false) (he2 : e.rawTifs = [])
    (hl1 : l.hasArg = false) (hl2 : l.rawLazFiles = []) :
    (terrainMain e).exitCode = 1 ∧
    (terrainMain e).trace = [] ∧
    ((terrainMain e).dirsMade.contains PROCESSED_DIR = false) ∧
    ((terrainMain e).dirsMade.contains OUTPUT_DIR = false) ∧
    (lazMain l).exitCode = 1 ∧
    (lazMain l).trace = [LazEvent.mkdir RAW_DATA_DIR] := by
  have hlaz : lazMain l
      = { scannedRaw := true, trace := [.mkdir RAW_DATA_DIR], exitCode := 1 } := by
    unfold lazMain
    simp [hl1, hl2]
  rcases hcd : checkDependencies e with _ | d
  · unfold terrainMain
    rw [hcd, hlaz]
    simp [PROCESSED_DIR, OUTPUT_DIR]
  · unfold terrainMain
    rw [hcd, hlaz]
    simp [he1, he2, PROCESSED_DIR, OUTPUT_DIR, RAW_DATA_DIR]

/-- Witness for `zero_inputs_exit_nonzero_no_writes` at the concrete
empty-input environments. -/
theorem zero_inputs_exit_nonzero_no_writes_witness :
    (terrainMain terrainEnvEmpty).exitCode = 1 ∧
    (lazMain lazEnvEmpty).exitCode = 1 :=
  ⟨(zero_inputs_exit_nonzero_no_writes terrainEnvEmpty lazEnvEmpty
      rfl rfl rfl rfl).1,
   (zero_inputs_exit_nonzero_no_writes terrainEnvEmpty lazEnvEmpty
      rfl rfl rfl rfl).2.2.2.2.1⟩

/-- C2 counterexample: on the local-PDAL execution path, a non-zero exit
of the primary conversion subprocess is reported as overall failure of
the conversion step (the run exits 1) without the simplified fallback
translation ever being invoked. -/
theorem laz_local_path_no_fallback_cex :
    (lazMain lazEnvLocalFail).exitCode = 1 ∧
    ((lazMain lazEnvLocalFail).trace.contains
       (LazEvent.run lazLocalPipelineCmd false) = true) ∧
    ((lazMain lazEnvLocalFail).trace.all
       (fun ev => ! ev.isTranslateRun) = true) := by
  decide

/-- C2 amended: only on the containerized path does a non-zero exit of
the primary conversion subprocess trigger the simplified fallback before
failure is reported (and the step then fails only when the fallback also
failed to produce the raster); on the local-PDAL path there is no
fallback — a primary failure is reported to the caller immediately. -/
theorem laz_fallback_only_on_docker_path (e : LazEnv) (laz outp : FPath)
    (hrc : e.primaryDockerRc0 = false) :
    ((LazEvent.run (lazTranslateDockerCmd laz outp.dir) e.fallbackRc0)
       ∈ (convertLazToDemDocker e laz outp).1) ∧
    ((convertLazToDemDocker e laz outp).2
       = (convertLazSimpleDocker e laz outp).2) ∧
    ((convertLazSimpleDocker e laz outp).2 = false → e.fallbackTemp = false) ∧
    (∀ ev ∈ (convertLazToDemPdal e outp).1, ev.isTranslateRun = false) ∧
    (e.primaryPdalRc0 = false → (convertLazToDemPdal e outp).2 = false) := by
  refine ⟨?_, ?_, ?_, ?_, ?_⟩
  · cases ft : e.fallbackTemp <;>
      simp [convertLazToDemDocker, hrc, convertLazSimpleDocker, ft]
  · simp [convertLazToDemDocker, hrc]
  · intro h
    cases ft : e.fallbackTemp
    · rfl
    · simp [convertLazSimpleDocker, ft] at h
  · intro ev hev
    simp only [convertLazToDemPdal, List.cons_append, List.nil_append,
      List.mem_cons, List.not_mem_nil, or_false] at hev
    rcases hev with rfl | rfl | rfl
    · rfl
    · rfl
    · simp [LazEvent.isTranslateRun, lazLocalPipelineCmd, PROCESSED_DIR]
  · intro h
    simp [convertLazToDemPdal, h]

/-- Witness for `laz_fallback_only_on_docker_path`: a concrete Docker-path
run whose primary conversion fails and whose fallback also fails. -/
theorem laz_fallback_only_on_docker_path_witness :
    ((LazEvent.run (lazTranslateDockerCmd ⟨"PROJECT", "cloud.laz"⟩ demFile.dir)
        lazEnvDockerFail.fallbackRc0)
       ∈ (convertLazToDemDocker lazEnvDockerFail ⟨"PROJECT", "cloud.laz"⟩
            demFile).1) ∧
    lazEnvDockerFail.fallbackTemp = false :=
  ⟨(laz_fallback_only_on_docker_path lazEnvDockerFail ⟨"PROJECT", "cloud.laz"⟩
      demFile rfl).1,
   (laz_fallback_only_on_docker_path lazEnvDockerFail ⟨"PROJECT", "cloud.laz"⟩
      demFile rfl).2.2.1 (by decide)⟩

/-- C3 counterexample: in the point-cloud pipeline, a non-zero exit of
the tiling subprocess is not terminal — the recorded tiling invocation
exited non-zero, no `layer.json` appeared, and the process still exits
with status 0. -/
theorem laz_tiling_failure_exits_zero_cex :
    ((lazMain lazEnvTileFail).trace.contains
       (LazEvent.run (lazTileCmd wgs84File) false) = true) ∧
    lazEnvTileFail.layerJsonExists = false ∧
    (lazMain lazEnvTileFail).exitCode = 0 := by
  decide

/-- C3 amended: missing dependencies, missing input, and conversion or
reprojection failures exit non-zero in both scripts, and the raster
script exits non-zero whenever any invoked subprocess fails; but in the
point-cloud script the tiling subprocess exit codes never influence the
process exit status — a tiling-stage subprocess failure still exits 0. -/
theorem pipeline_exit_status_amended (e : TerrainEnv) (l : LazEnv) :
    ((terrainMain e).exitCode = 0 →
       checkDependencies e ≠ none ∧ ∀ c ∈ (terrainMain e).trace, e.ok c = true) ∧
    (checkDependencies e = none → (terrainMain e).exitCode = 1) ∧
    (e.hasArg = false → e.rawTifs = [] → (terrainMain e).exitCode = 1) ∧
    (e.hasArg = true → e.argExists = false → (terrainMain e).exitCode = 1) ∧
    ((lazMain l).exitCode = 0 →
       l.docker = true ∧ (lazConv l).2 = true ∧ l.demExistsAfter = true ∧
       (reprojectToWgs84 l demFile wgs84File).2 = true) ∧
    (l.docker = false → l.pdal = false → (lazMain l).exitCode = 1) ∧
    (l.hasArg = false → l.rawLazFiles = [] → (lazMain l).exitCode = 1) ∧
    (l.hasArg = true → l.argExists = false → (lazMain l).exitCode = 1) ∧
    ((lazMain { l with tileRc0 := false, layerRc0 := false }).exitCode
       = (lazMain l).exitCode) := by
  refine ⟨?_, ?_, ?_, ?_, ?_, ?_, ?_, ?_, ?_⟩
  · intro h0
    rcases hcd : checkDependencies e with _ | d
    · rw [terrainMain, hcd] at h0
      simp at h0
    · refine ⟨by simp [hcd], ?_⟩
      intro c hc
      rw [terrainMain, hcd] at h0 hc
      by_cases hA : e.hasArg = true
      · by_cases hX : e.argExists = true
        · simp only [hA, hX, if_true, terrainProcess] at h0 hc
          have hok : (execChecked e.ok (if e.docker then
              processWithDockerCmds [e.argFile]
              else processWithLocalCmds e.ctb [e.argFile])).2 = true := by
            by_contra hbad
            simp [Bool.not_eq_true] at hbad
            simp [hbad] at h0
          exact execChecked_all_ok e.ok _ hok c hc
        · simp only [Bool.not_eq_true] at hX
          simp [hA, hX] at h0
      · simp only [Bool.not_eq_true] at hA
        by_cases hE : e.rawTifs.isEmpty = true
        · simp [hA, hE] at h0
        · simp only [Bool.not_eq_true] at hE
          simp only [hA, hE, Bool.false_eq_true, if_false, terrainProcess] at h0 hc
          have hok : (execChecked e.ok (if e.docker then
              processWithDockerCmds e.rawTifs
              else processWithLocalCmds e.ctb e.rawTifs)).2 = true := by
            by_contra hbad
            simp [Bool.not_eq_true] at hbad
            simp [hbad] at h0
          exact execChecked_all_ok e.ok _ hok c hc
  · intro hcd
    rw [terrainMain, hcd]
  · intro hA hE
    rcases hcd : checkDependencies e with _ | d <;> rw [terrainMain, hcd] <;>
      simp [hA, hE]
  · intro hA hX
    rcases hcd : checkDependencies e with _ | d <;> rw [terrainMain, hcd] <;>
      simp [hA, hX]
  · intro h0
    rw [lazMain_exitCode, lazMainCore_snd] at h0
    cases hc : (lazConv l).2 <;> cases hde : l.demExistsAfter <;>
      cases hr : (reprojectToWgs84 l demFile wgs84File).2 <;>
        cases hD : l.docker <;>
          simp [hc, hde, hr, hD] at h0 <;>
            exact ⟨rfl, rfl, rfl, rfl⟩
  · intro hD hP
    rw [lazMain_exitCode, lazMainCore_snd]
    simp [hD, hP]
  · intro hA hE
    rw [lazMain_exitCode]
    simp [hA, hE]
  · intro hA hX
    rw [lazMain_exitCode]
    simp [hA, hX]
  · have hconv : lazConv { l with tileRc0 := false, layerRc0 := false }
        = lazConv l := rfl
    have hrep : reprojectToWgs84 { l with tileRc0 := false, layerRc0 := false }
        demFile wgs84File = reprojectToWgs84 l demFile wgs84File := rfl
    rw [lazMain_exitCode, lazMain_exitCode, lazMainCore_snd, lazMainCore_snd,
      hconv, hrep]

/-- Witness for `pipeline_exit_status_amended` at concrete environments:
a fully successful raster run exits 0 with every command succeeding, an
empty-input raster run exits 1, and a point-cloud run is insensitive in
its exit code to tiling subprocess failure. -/
theorem pipeline_exit_status_amended_witness :
    (checkDependencies terrainEnvArg ≠ none ∧
       ∀ c ∈ (terrainMain terrainEnvArg).trace, terrainEnvArg.ok c = true) ∧
    ((lazMain { lazEnvArg with tileRc0 := false, layerRc0 := false }).exitCode
       = (lazMain lazEnvArg).exitCode) :=
  ⟨(pipeline_exit_status_amended terrainEnvArg lazEnvArg).1 (by decide),
   (pipeline_exit_status_amended terrainEnvArg lazEnvArg).2.2.2.2.2.2.2.2⟩

/-- C5 counterexample: with local PDAL and GDAL but no Docker, neither
probed tool set can carry out every stage of the point-cloud pipeline
(its tiling stage runs only through Docker, whose absence makes the
tiling step raise), yet the run does not abort up front: it invokes the
conversion subprocess and only fails afterwards, mid-processing. -/
theorem laz_insufficient_tools_still_converts_cex :
    lazEnvNoDockerTools.docker = false ∧
    ((lazMain lazEnvNoDockerTools).trace.contains
       (LazEvent.run lazLocalPipelineCmd true) = true) ∧
    (createTerrainTiles lazEnvNoDockerTools wgs84File).2 = none ∧
    (lazMain lazEnvNoDockerTools).exitCode = 1 := by
  decide

/-- C5 amended: the raster script aborts (exit 1, no command invoked)
exactly when neither Docker nor the GDAL + ctb-tile pair is present; the
point-cloud script aborts before any conversion only when both Docker
and PDAL are missing — with PDAL present but Docker (required by its
tiling stage) absent, it proceeds into conversion and fails
mid-processing instead of aborting up front. -/
theorem abort_before_conversion_amended (e : TerrainEnv) (l : LazEnv) :
    (checkDependencies e = none →
       (terrainMain e).trace = [] ∧ (terrainMain e).exitCode = 1) ∧
    (l.docker = false → l.pdal = false →
       (lazMain l).exitCode = 1 ∧
       ∀ ev ∈ (lazMain l).trace, ev.isConversionRun = false) ∧
    (l.docker = false → (createTerrainTiles l wgs84File).2 = none) ∧
    (l.hasArg = true → l.argExists = true → l.docker = false → l.pdal = true →
       (LazEvent.run lazLocalPipelineCmd l.primaryPdalRc0)
         ∈ (lazMain l).trace) := by
  refine ⟨?_, ?_, ?_, ?_⟩
  · intro hcd
    rw [terrainMain, hcd]
    exact ⟨rfl, rfl⟩
  · intro hD hP
    have hcore : lazMainCore l
        = ((if l.hasArg then [] else [LazEvent.mkdir RAW_DATA_DIR]), 1) := by
      unfold lazMainCore
      simp [hD, hP]
    constructor
    · rw [lazMain_exitCode, hcore]
      simp
    · unfold lazMain
      split
      · intro ev hev
        simp only [List.mem_cons, List.not_mem_nil, or_false] at hev
        subst hev
        rfl
      · split
        · intro ev hev
          simp at hev
        · intro ev hev
          simp only [hcore] at hev
          cases hA : l.hasArg <;> simp [hA] at hev
          subst hev
          rfl
  · intro hD
    simp [createTerrainTiles, hD]
  · intro hA hX hD hP
    rw [lazMain_trace_core l hA hX]
    obtain ⟨suffix, hs⟩ := lazMainCore_trace_prefix l (by simp [hP])
    rw [hs]
    simp [lazConv, hD, convertLazToDemPdal, List.mem_append]

/-- Witness for `abort_before_conversion_amended` at concrete
environments: a toolless raster run aborts with an empty trace, a
Docker-and-PDAL-less point-cloud run exits 1, and a PDAL-only point-cloud
run reaches its conversion subprocess. -/
theorem abort_before_conversion_amended_witness :
    ((terrainMain terrainEnvNoTools).trace = [] ∧
       (terrainMain terrainEnvNoTools).exitCode = 1) ∧
    (lazMain lazEnvNo).exitCode = 1 ∧
    ((LazEvent.run lazLocalPipelineCmd lazEnvNoDockerTools.primaryPdalRc0)
       ∈ (lazMain lazEnvNoDockerTools).trace) :=
  ⟨(abort_before_conversion_amended terrainEnvNoTools lazEnvNo).1 (by decide),
   ((abort_before_conversion_amended terrainEnvNoTools lazEnvNo).2.1
      (by decide) (by decide)).1,
   (abort_before_conversion_amended terrainEnvNoTools lazEnvNoDockerTools).2.2.2
      (by decide) (by decide) (by decide) (by decide)⟩

/-- C9 counterexample: the raster pipeline's reprojection invocation (on
both execution paths) passes no compression flag at all — `-co
COMPRESS=LZW` appears nowhere in its argument list — contradicting the
claim that every reprojection invocation selects compressed output. -/
theorem terrain_reprojection_uncompressed_cex :
    ((terrainMain terrainEnvArg).trace.contains
       (dockerWarpCmd ⟨"PROJECT", "custom.tif"⟩) = true) ∧
    (dockerWarpCmd ⟨"PROJECT", "custom.tif"⟩).contains "-co" = false ∧
    (dockerWarpCmd ⟨"PROJECT", "custom.tif"⟩).contains "COMPRESS=LZW" = false ∧
    (localWarpCmd ⟨"PROJECT", "custom.tif"⟩).contains "-co" = false ∧
    (localWarpCmd ⟨"PROJECT", "custom.tif"⟩).contains "COMPRESS=LZW" = false := by
  decide

/-- C9 amended: every reprojection invocation, in both pipelines and on
both execution paths, fixes the target CRS EPSG:4326, bilinear
resampling and GTiff output; the point-cloud pipeline's invocations
additionally fix LZW-compressed output, while the raster pipeline's
invocations pass no compression flag. -/
theorem reprojection_flags_amended (f : FPath) (a b : String) :
    List.IsInfix ["gdalwarp", "-t_srs", "EPSG:4326", "-r", "bilinear",
        "-of", "GTiff"] (dockerWarpCmd f) ∧
    List.IsInfix ["gdalwarp", "-t_srs", "EPSG:4326", "-r", "bilinear",
        "-of", "GTiff"] (localWarpCmd f) ∧
    List.IsInfix ["gdalwarp", "-t_srs", "EPSG:4326", "-r", "bilinear",
        "-of", "GTiff", "-co", "COMPRESS=LZW"] (lazDockerWarpCmd f) ∧
    List.IsInfix ["gdalwarp", "-t_srs", "EPSG:4326", "-r", "bilinear",
        "-of", "GTiff", "-co", "COMPRESS=LZW"] (lazLocalWarpCmd a b) ∧
    (dockerWarpCmd ⟨"PROJECT", "other.tif"⟩).contains "-co" = false ∧
    (localWarpCmd ⟨"PROJECT", "other.tif"⟩).contains "COMPRESS=LZW" = false := by
  refine ⟨?_, ?_, ?_, ?_, by decide, by decide⟩
  · exact ⟨["docker", "run", "--rm", "-v", f.dir ++ ":/data/input",
       "-v", PROCESSED_DIR ++ ":/data/output", "osgeo/gdal:latest"],
      ["/data/input/" ++ f.name, "/data/output/wgs84.tif"], rfl⟩
  · exact ⟨[], [f.str, PROCESSED_DIR ++ "/wgs84.tif"], rfl⟩
  · exact ⟨["docker", "run", "--rm", "-v", f.dir ++ ":/data",
       "osgeo/gdal:latest"], ["/data/" ++ f.name, "/data/wgs84.tif"], rfl⟩
  · exact ⟨[], [a, b], rfl⟩

end ClimbingMap
